import Mathlib

/-!
Shallow embedding of the kona fault-proof host and derivation-pipeline core:
the derivation pipeline driver (`crates/derive/src/pipeline/core.rs`), the
alloy chain providers with their LRU caches
(`crates/derive/src/online/alloy_providers.rs`), and the host entry points
(`bin/host/src/lib.rs`).

Rust `async fn`s are deterministic once the transport responses are fixed, so
they are embedded as pure functions; mutation of `&mut self` becomes explicit
state passing (each operation returns a result paired with the new state).
Generic stage / provider parameters (`S`, `P` in the Rust source) become type
parameters together with a record of the trait methods.
-/

namespace Kona

/-- Block header info: hash, number, parent hash, timestamp
(`kona_primitives::BlockInfo`). Hashes are modelled as natural numbers. -/
structure BlockInfo where
  hash : Nat
  number : Nat
  parent_hash : Nat
  timestamp : Nat
deriving DecidableEq, Repr

/-- Modelled from the spec: the rollup config is a chain-wide immutable
parameter set, opaque to the driver; it is only threaded through to the
provider. -/
structure RollupConfig where
  params : Nat
deriving DecidableEq, Repr

/-- Modelled from the spec: per-block mutable rollup parameters derived from
L1 events; the driver fetches one on reset and hands it to the stage stack
without inspecting it. -/
structure SystemConfig where
  params : Nat
deriving DecidableEq, Repr

/-- Modelled from the spec: stage errors distinguish only `Eof` (recoverable,
"stage has drained current input") from every other, fatal error. The concrete
error enumeration lives outside the embedded sources; non-Eof errors are
carried opaquely by a numeric code. -/
inductive StageError where
  | Eof
  | other (code : Nat)
deriving DecidableEq, Repr

/-- Result of `DerivationPipeline::step` (`StepResult` in the derive crate). -/
inductive StepResult where
  | PreparedAttributes
  | AdvancedOrigin
  | OriginAdvanceErr (e : StageError)
  | StepFailed (e : StageError)
deriving DecidableEq, Repr

/-- Error returned by the opaque provider transport (`anyhow::Error` values
coming out of the L2 chain provider). -/
structure ProviderError where
  code : Nat
deriving DecidableEq, Repr

/-- Error returned by `DerivationPipeline::reset`: either the system-config
fetch failed (propagated by `?`) or the stage reset failed with a non-Eof
error (re-raised by `bail!`). -/
inductive PipelineError where
  | provider (e : ProviderError)
  | stage (e : StageError)
deriving DecidableEq, Repr

/-- The stage-stack capability set required of the driver's `S` parameter
(`NextAttributes + ResettableStage + OriginProvider + OriginAdvancer`).
`σ` is the stage state, `χ` the cursor type (`L2BlockInfo`, opaque to the
driver), `α` the produced attributes (`L2AttributesWithParent`). Each method
returns its result together with the mutated stage state. -/
structure Stage (σ χ α : Type) where
  next_attributes : σ → χ → Except StageError α × σ
  advance_origin : σ → Except StageError Unit × σ
  origin : σ → Option BlockInfo
  reset : σ → BlockInfo → SystemConfig → Except StageError Unit × σ

/-- The `L2ChainProvider` capability used by the driver: fetching the system
config at a block number. `π` is the provider state. -/
structure L2ChainProvider (π : Type) where
  system_config_by_number : π → Nat → RollupConfig → Except ProviderError SystemConfig × π

/-- The derivation pipeline driver state (`DerivationPipeline<S, P>`): the
stage stack state, the FIFO queue of prepared attributes (a `VecDeque`, head
of the list = front of the deque), the rollup config and the L2 chain
provider state. -/
structure DerivationPipeline (σ π α : Type) where
  attributes : σ
  prepared : List α
  rollup_config : RollupConfig
  l2_chain_provider : π

/-- Creates a new pipeline (`DerivationPipeline::new`): empty prepared
queue. -/
def DerivationPipeline.new (attributes : σ) (rollup_config : RollupConfig)
    (l2_chain_provider : π) : DerivationPipeline σ π α :=
  { attributes := attributes, prepared := [], rollup_config := rollup_config,
    l2_chain_provider := l2_chain_provider }

/-- The `Iterator::next` implementation: `self.prepared.pop_front()`. -/
def DerivationPipeline.next (p : DerivationPipeline σ π α) :
    Option α × DerivationPipeline σ π α :=
  match p.prepared with
  | [] => (none, p)
  | a :: rest => (some a, { p with prepared := rest })

/-- The `Pipeline::peek` implementation: `self.prepared.front()`. It takes
`&self` in the source, so it has no state component. -/
def DerivationPipeline.peek (p : DerivationPipeline σ π α) : Option α :=
  p.prepared.head?

/-- The `Pipeline::reset` implementation: fetch the system config at
`l2_block_info.number` from the L2 chain provider (propagating its error via
`?`), then call the stage stack's reset with `(l1_block_info, system_config)`;
`Ok` and `Eof` both yield `Ok(())`, any other stage error is re-raised via
`bail!`. -/
def DerivationPipeline.reset (st : Stage σ χ α) (prov : L2ChainProvider π)
    (p : DerivationPipeline σ π α) (l2_block_info l1_block_info : BlockInfo) :
    Except PipelineError Unit × DerivationPipeline σ π α :=
  match prov.system_config_by_number p.l2_chain_provider l2_block_info.number
      p.rollup_config with
  | (.error e, pr) => (.error (.provider e), { p with l2_chain_provider := pr })
  | (.ok system_config, pr) =>
    match st.reset p.attributes l1_block_info system_config with
    | (.ok (), s) =>
      (.ok (), { p with attributes := s, l2_chain_provider := pr })
    | (.error .Eof, s) =>
      (.ok (), { p with attributes := s, l2_chain_provider := pr })
    | (.error err, s) =>
      (.error (.stage err), { p with attributes := s, l2_chain_provider := pr })

/-- The `Pipeline::step` implementation: ask the stage stack for the next
attributes at `cursor`; on success push them at the back of the prepared
queue; on `Eof` try to advance the L1 origin; on any other error report
`StepFailed`. -/
def DerivationPipeline.step (st : Stage σ χ α) (p : DerivationPipeline σ π α)
    (cursor : χ) : StepResult × DerivationPipeline σ π α :=
  match st.next_attributes p.attributes cursor with
  | (.ok a, s) =>
    (.PreparedAttributes, { p with attributes := s, prepared := p.prepared ++ [a] })
  | (.error .Eof, s) =>
    match st.advance_origin s with
    | (.error e, s2) => (.OriginAdvanceErr e, { p with attributes := s2 })
    | (.ok (), s2) => (.AdvancedOrigin, { p with attributes := s2 })
  | (.error err, s) => (.StepFailed err, { p with attributes := s })

/-- The `OriginProvider::origin` implementation: forwards to the stage. -/
def DerivationPipeline.origin (st : Stage σ χ α) (p : DerivationPipeline σ π α) :
    Option BlockInfo :=
  st.origin p.attributes

/-! The `lru::LruCache` used by the alloy providers, modelled as a
recency-ordered association list (head = most recently used) with a fixed
capacity. `get` promotes a hit to the front; `put` inserts at the front,
replacing any previous binding of the key, and evicts from the back down to
the capacity. Keys are modelled as natural numbers (`B256` hashes and `u64`
block numbers both embed into `Nat`). -/

/-- A bounded LRU cache: capacity and recency-ordered entries. -/
structure LruCache (V : Type) where
  cap : Nat
  entries : List (Nat × V)

/-- `LruCache::new(cap)`: an empty cache of the given capacity. -/
def LruCache.new (cap : Nat) : LruCache V :=
  { cap := cap, entries := [] }

/-- `LruCache::get(&k)`: on a hit, return the value and promote the entry to
most-recently-used; on a miss the cache is unchanged. -/
def LruCache.get (c : LruCache V) (k : Nat) : Option V × LruCache V :=
  match c.entries.find? (fun q => q.1 == k) with
  | none => (none, c)
  | some q =>
    (some q.2, { c with entries := (k, q.2) :: c.entries.filter (fun q => q.1 != k) })

/-- `LruCache::put(k, v)`: insert at most-recently-used, dropping any previous
binding of `k` and evicting least-recently-used entries beyond the
capacity. -/
def LruCache.put (c : LruCache V) (k : Nat) (v : V) : LruCache V :=
  { c with entries := ((k, v) :: c.entries.filter (fun q => q.1 != k)).take c.cap }

/-! The L1 `AlloyChainProvider` (`online/alloy_providers.rs`). The inner
`ReqwestProvider` is the transport: we model it as a record of deterministic
response functions (the determinism assumption of the spec — the RPC returns
the same bytes for the same request). RLP decoding of external alloy types is
modelled by a record of abstract decoder functions. -/

/-- A raw byte string returned by the RPC (`alloy_primitives::Bytes`). -/
def Bytes := List Nat
deriving DecidableEq, Repr

/-- Transport-level error (`alloy_transport` error wrapped by `anyhow!`). -/
structure RpcError where
  code : Nat
deriving DecidableEq, Repr

/-- Decode-level error (`alloy_rlp` error wrapped by `anyhow!`). -/
structure DecodeError where
  code : Nat
deriving DecidableEq, Repr

/-- Error surfaced by a provider operation: the RPC layer and the decode
layer fail distinctly (the source attributes them to different metrics). -/
inductive ProvError where
  | rpc (e : RpcError)
  | decode (e : DecodeError)
deriving DecidableEq, Repr

/-- An `alloy_consensus::Header` as the provider uses it: parent hash,
timestamp, number, and the value of `hash_slow()` (the header's keccak hash,
precomputed since hashing is opaque here). -/
structure Header where
  parent_hash : Nat
  timestamp : Nat
  number : Nat
  hash_slow : Nat
deriving DecidableEq, Repr

/-- An `alloy_consensus::Receipt`, opaque to the provider. -/
structure Receipt where
  payload : Nat
deriving DecidableEq, Repr

/-- An `alloy_consensus::ReceiptWithBloom`: the provider only projects out its
`receipt` field. -/
structure ReceiptWithBloom where
  receipt : Receipt
deriving DecidableEq, Repr

/-- A transaction envelope (`alloy_consensus::TxEnvelope`), opaque. -/
structure TxEnvelope where
  payload : Nat
deriving DecidableEq, Repr

/-- A `kona_primitives::Block` as used by
`block_info_and_transactions_by_hash`: a header and a transaction body. -/
structure Block where
  header : Header
  body : List TxEnvelope
deriving DecidableEq, Repr

/-- The deterministic L1 RPC transport: responses of `debug_getRawHeader`
(keyed by hash or by number), `debug_getRawReceipts` and `debug_getRawBlock`. -/
structure L1Rpc where
  rawHeaderByHash : Nat → Except RpcError Bytes
  rawHeaderByNumber : Nat → Except RpcError Bytes
  rawReceipts : Nat → Except RpcError (List Bytes)
  rawBlock : Nat → Except RpcError Bytes

/-- The abstract RLP decoders for the external alloy types the L1 provider
decodes (`Header::decode`, `ReceiptWithBloom::decode`, `Block::decode`). -/
structure L1Decoders where
  decodeHeader : Bytes → Except DecodeError Header
  decodeReceiptWithBloom : Bytes → Except DecodeError ReceiptWithBloom
  decodeBlock : Bytes → Except DecodeError Block

/-- `CACHE_SIZE`: the capacity of every provider LRU cache. -/
def CACHE_SIZE : Nat := 16

/-- The `TxType::Eip4844` discriminant (3), the largest recognized
transaction type tag. -/
def txTypeEip4844 : Nat := 3

/-- The per-receipt decoding closure inside `receipts_by_hash`: skip the
transaction type byte if the byte string is non-empty and its first byte is
`≤ TxType::Eip4844 as u8`, then RLP-decode the inner `ReceiptWithBloom` and
project its `receipt` field. -/
def decodeRawReceipt (dec : Bytes → Except DecodeError ReceiptWithBloom)
    (r : Bytes) : Except DecodeError Receipt :=
  let stripped : Bytes :=
    match r with
    | [] => r
    | b :: rest => if b ≤ txTypeEip4844 then rest else b :: rest
  (dec stripped).map (fun rb => rb.receipt)

/-- The `AlloyChainProvider` state: its four LRU caches (the inner
`ReqwestProvider` is the `L1Rpc` parameter of each operation). -/
structure AlloyChainProvider where
  header_by_hash_cache : LruCache Header
  block_info_by_number_cache : LruCache BlockInfo
  receipts_by_hash_cache : LruCache (List Receipt)
  block_info_and_transactions_by_hash_cache : LruCache (BlockInfo × List TxEnvelope)

/-- `AlloyChainProvider::new`: every cache is created with capacity
`CACHE_SIZE`. -/
def AlloyChainProvider.new : AlloyChainProvider :=
  { header_by_hash_cache := LruCache.new CACHE_SIZE,
    block_info_by_number_cache := LruCache.new CACHE_SIZE,
    receipts_by_hash_cache := LruCache.new CACHE_SIZE,
    block_info_and_transactions_by_hash_cache := LruCache.new CACHE_SIZE }

/-- `ChainProvider::header_by_hash`: consult the LRU; on a miss request
`debug_getRawHeader`, decode the header, cache and return it. -/
def AlloyChainProvider.header_by_hash (rpc : L1Rpc) (dec : L1Decoders)
    (p : AlloyChainProvider) (hash : Nat) :
    Except ProvError Header × AlloyChainProvider :=
  match p.header_by_hash_cache.get hash with
  | (some header, c) => (.ok header, { p with header_by_hash_cache := c })
  | (none, _) =>
    match rpc.rawHeaderByHash hash with
    | .error e => (.error (.rpc e), p)
    | .ok raw =>
      match dec.decodeHeader raw with
      | .ok header =>
        (.ok header, { p with header_by_hash_cache :=
          p.header_by_hash_cache.put hash header })
      | .error e => (.error (.decode e), p)

/-- `ChainProvider::block_info_by_number`: consult the LRU; on a miss request
`debug_getRawHeader` by number, decode the header, build the `BlockInfo` from
`hash_slow()`, the queried number, the parent hash and the timestamp, cache
and return it. -/
def AlloyChainProvider.block_info_by_number (rpc : L1Rpc) (dec : L1Decoders)
    (p : AlloyChainProvider) (number : Nat) :
    Except ProvError BlockInfo × AlloyChainProvider :=
  match p.block_info_by_number_cache.get number with
  | (some block_info, c) => (.ok block_info, { p with block_info_by_number_cache := c })
  | (none, _) =>
    match rpc.rawHeaderByNumber number with
    | .error e => (.error (.rpc e), p)
    | .ok raw =>
      match dec.decodeHeader raw with
      | .error e => (.error (.decode e), p)
      | .ok header =>
        let block_info : BlockInfo :=
          { hash := header.hash_slow, number := number,
            parent_hash := header.parent_hash, timestamp := header.timestamp }
        (.ok block_info, { p with block_info_by_number_cache :=
          p.block_info_by_number_cache.put number block_info })

/-- `ChainProvider::receipts_by_hash`: consult the LRU; on a miss request
`debug_getRawReceipts` and decode each raw receipt with `decodeRawReceipt`
(short-circuiting at the first failure, as `collect::<Result<_>>` does),
cache and return the list. -/
def AlloyChainProvider.receipts_by_hash (rpc : L1Rpc) (dec : L1Decoders)
    (p : AlloyChainProvider) (hash : Nat) :
    Except ProvError (List Receipt) × AlloyChainProvider :=
  match p.receipts_by_hash_cache.get hash with
  | (some receipts, c) => (.ok receipts, { p with receipts_by_hash_cache := c })
  | (none, _) =>
    match rpc.rawReceipts hash with
    | .error e => (.error (.rpc e), p)
    | .ok raws =>
      match raws.mapM (decodeRawReceipt dec.decodeReceiptWithBloom) with
      | .error e => (.error (.decode e), p)
      | .ok receipts =>
        (.ok receipts, { p with receipts_by_hash_cache :=
          p.receipts_by_hash_cache.put hash receipts })

/-- `ChainProvider::block_info_and_transactions_by_hash`: consult the LRU; on
a miss request `debug_getRawBlock`, decode the block, build the `BlockInfo`
from its header, cache and return it with the body. -/
def AlloyChainProvider.block_info_and_transactions_by_hash (rpc : L1Rpc)
    (dec : L1Decoders) (p : AlloyChainProvider) (hash : Nat) :
    Except ProvError (BlockInfo × List TxEnvelope) × AlloyChainProvider :=
  match p.block_info_and_transactions_by_hash_cache.get hash with
  | (some block_info_and_txs, c) =>
    (.ok block_info_and_txs, { p with block_info_and_transactions_by_hash_cache := c })
  | (none, _) =>
    match rpc.rawBlock hash with
    | .error e => (.error (.rpc e), p)
    | .ok raw =>
      match dec.decodeBlock raw with
      | .error e => (.error (.decode e), p)
      | .ok block =>
        let block_info : BlockInfo :=
          { hash := block.header.hash_slow, number := block.header.number,
            parent_hash := block.header.parent_hash,
            timestamp := block.header.timestamp }
        let cache :=
          p.block_info_and_transactions_by_hash_cache.put hash (block_info, block.body)
        (.ok (block_info, block.body),
          { p with block_info_and_transactions_by_hash_cache := cache })

/-! The `AlloyL2ChainProvider`, with its three LRU caches. -/

/-- A `kona_primitives::OpBlock`, opaque to the provider except for its
conversion into a payload envelope. -/
structure OpBlock where
  payload : Nat
deriving DecidableEq, Repr

/-- A `kona_primitives::L2ExecutionPayloadEnvelope`, opaque. -/
structure L2ExecutionPayloadEnvelope where
  payload : Nat
deriving DecidableEq, Repr

/-- A `kona_primitives::L2BlockInfo` value as cached by the L2 provider,
opaque. -/
structure L2BlockInfo where
  info : Nat
deriving DecidableEq, Repr

/-- The deterministic L2 RPC transport: `debug_getRawBlock` by number. -/
structure L2Rpc where
  rawBlockByNumber : Nat → Except RpcError Bytes

/-- The abstract decoders and conversions used by the L2 provider
(`OpBlock::decode`, the `Into<L2ExecutionPayloadEnvelope>` conversion,
`to_l2_block_ref` and `to_system_config`; the latter two return opaque
`anyhow` errors). -/
structure L2Decoders where
  decodeOpBlock : Bytes → Except DecodeError OpBlock
  intoPayload : OpBlock → L2ExecutionPayloadEnvelope
  to_l2_block_ref : L2ExecutionPayloadEnvelope → RollupConfig → Except ProvError L2BlockInfo
  to_system_config : L2ExecutionPayloadEnvelope → RollupConfig → Except ProvError SystemConfig

/-- The `AlloyL2ChainProvider` state: the rollup config it was constructed
with and its three LRU caches. -/
structure AlloyL2ChainProvider where
  rollup_config : RollupConfig
  payload_by_number_cache : LruCache L2ExecutionPayloadEnvelope
  l2_block_info_by_number_cache : LruCache L2BlockInfo
  system_config_by_number_cache : LruCache SystemConfig

/-- `AlloyL2ChainProvider::new`: every cache is created with capacity
`CACHE_SIZE`. -/
def AlloyL2ChainProvider.new (rollup_config : RollupConfig) : AlloyL2ChainProvider :=
  { rollup_config := rollup_config,
    payload_by_number_cache := LruCache.new CACHE_SIZE,
    l2_block_info_by_number_cache := LruCache.new CACHE_SIZE,
    system_config_by_number_cache := LruCache.new CACHE_SIZE }

/-- `L2ChainProvider::payload_by_number`: consult the LRU; on a miss request
`debug_getRawBlock` by number, decode the `OpBlock`, convert it into a
payload envelope, cache and return it. -/
def AlloyL2ChainProvider.payload_by_number (rpc : L2Rpc) (dec : L2Decoders)
    (p : AlloyL2ChainProvider) (number : Nat) :
    Except ProvError L2ExecutionPayloadEnvelope × AlloyL2ChainProvider :=
  match p.payload_by_number_cache.get number with
  | (some payload, c) => (.ok payload, { p with payload_by_number_cache := c })
  | (none, _) =>
    match rpc.rawBlockByNumber number with
    | .error e => (.error (.rpc e), p)
    | .ok raw =>
      match dec.decodeOpBlock raw with
      | .error e => (.error (.decode e), p)
      | .ok block =>
        let payload_envelope := dec.intoPayload block
        let cache := p.payload_by_number_cache.put number payload_envelope
        (.ok payload_envelope, { p with payload_by_number_cache := cache })

/-- `L2ChainProvider::l2_block_info_by_number`: consult the LRU; on a miss
fetch the payload via `payload_by_number` (which itself consults and updates
the payload cache), convert it with `to_l2_block_ref` against the provider's
rollup config, cache and return it. -/
def AlloyL2ChainProvider.l2_block_info_by_number (rpc : L2Rpc) (dec : L2Decoders)
    (p : AlloyL2ChainProvider) (number : Nat) :
    Except ProvError L2BlockInfo × AlloyL2ChainProvider :=
  match p.l2_block_info_by_number_cache.get number with
  | (some l2_block_info, c) =>
    (.ok l2_block_info, { p with l2_block_info_by_number_cache := c })
  | (none, _) =>
    match AlloyL2ChainProvider.payload_by_number rpc dec p number with
    | (.error e, p1) => (.error e, p1)
    | (.ok payload, p1) =>
      match dec.to_l2_block_ref payload p1.rollup_config with
      | .error e => (.error e, p1)
      | .ok l2_block_info =>
        let cache := p1.l2_block_info_by_number_cache.put number l2_block_info
        (.ok l2_block_info, { p1 with l2_block_info_by_number_cache := cache })

/-- `L2ChainProvider::system_config_by_number`: consult the LRU; on a miss
fetch the payload via `payload_by_number`, convert it with
`to_system_config` against the rollup config *argument*, cache and return
it. -/
def AlloyL2ChainProvider.system_config_by_number (rpc : L2Rpc) (dec : L2Decoders)
    (p : AlloyL2ChainProvider) (number : Nat) (rollup_config : RollupConfig) :
    Except ProvError SystemConfig × AlloyL2ChainProvider :=
  match p.system_config_by_number_cache.get number with
  | (some system_config, c) =>
    (.ok system_config, { p with system_config_by_number_cache := c })
  | (none, _) =>
    match AlloyL2ChainProvider.payload_by_number rpc dec p number with
    | (.error e, p1) => (.error e, p1)
    | (.ok envelope, p1) =>
      match dec.to_system_config envelope rollup_config with
      | .error e => (.error e, p1)
      | .ok sys_config =>
        let cache := p1.system_config_by_number_cache.put number sys_config
        (.ok sys_config, { p1 with system_config_by_number_cache := cache })

/-! Operation sequences over the providers, to state invariants that hold at
every point of every run. -/

/-- One call to an `AlloyChainProvider` operation. -/
inductive L1Op where
  | headerByHash (hash : Nat)
  | blockInfoByNumber (number : Nat)
  | receiptsByHash (hash : Nat)
  | blockInfoAndTransactionsByHash (hash : Nat)
deriving DecidableEq, Repr

/-- The provider state after one operation (discarding the returned value). -/
def AlloyChainProvider.exec (rpc : L1Rpc) (dec : L1Decoders)
    (p : AlloyChainProvider) (op : L1Op) : AlloyChainProvider :=
  match op with
  | .headerByHash h => (AlloyChainProvider.header_by_hash rpc dec p h).2
  | .blockInfoByNumber n => (AlloyChainProvider.block_info_by_number rpc dec p n).2
  | .receiptsByHash h => (AlloyChainProvider.receipts_by_hash rpc dec p h).2
  | .blockInfoAndTransactionsByHash h =>
    (AlloyChainProvider.block_info_and_transactions_by_hash rpc dec p h).2

/-- The provider state reached from `AlloyChainProvider::new` by a sequence
of operations. -/
def AlloyChainProvider.run (rpc : L1Rpc) (dec : L1Decoders) (ops : List L1Op) :
    AlloyChainProvider :=
  ops.foldl (AlloyChainProvider.exec rpc dec) AlloyChainProvider.new

/-- One call to an `AlloyL2ChainProvider` operation. -/
inductive L2Op where
  | payloadByNumber (number : Nat)
  | l2BlockInfoByNumber (number : Nat)
  | systemConfigByNumber (number : Nat) (rollup_config : RollupConfig)
deriving DecidableEq, Repr

/-- The L2 provider state after one operation. -/
def AlloyL2ChainProvider.exec (rpc : L2Rpc) (dec : L2Decoders)
    (p : AlloyL2ChainProvider) (op : L2Op) : AlloyL2ChainProvider :=
  match op with
  | .payloadByNumber n => (AlloyL2ChainProvider.payload_by_number rpc dec p n).2
  | .l2BlockInfoByNumber n => (AlloyL2ChainProvider.l2_block_info_by_number rpc dec p n).2
  | .systemConfigByNumber n cfg =>
    (AlloyL2ChainProvider.system_config_by_number rpc dec p n cfg).2

/-- The L2 provider state reached from `AlloyL2ChainProvider::new` by a
sequence of operations. -/
def AlloyL2ChainProvider.run (rpc : L2Rpc) (dec : L2Decoders)
    (rollup_config : RollupConfig) (ops : List L2Op) : AlloyL2ChainProvider :=
  ops.foldl (AlloyL2ChainProvider.exec rpc dec) (AlloyL2ChainProvider.new rollup_config)

/-! The host entry points (`bin/host/src/lib.rs`). A Rust future either
returns a value, returns an error, or panics; `PResult` carries all three
outcomes so that `catch_unwind` (which turns a panic into an `Err`) and the
`?` operator (which lets a panic unwind past it) can be distinguished. -/

/-- Outcome of a Rust computation that may panic. -/
inductive PResult (ε α : Type) where
  | ok (a : α)
  | error (e : ε)
  | panicked
deriving DecidableEq, Repr

/-- Outcome of running the preimage server future `server.start()`:
it either completes cleanly, completes with an error, or panics. The server
internals are outside the embedded sources, so the outcome is a parameter of
the host entry points. -/
inductive ServerOutcome where
  | ok
  | err (e : Nat)
  | panics
deriving DecidableEq, Repr

/-- Errors produced by the host entry points (`anyhow::Error` values). -/
inductive HostError where
  | serverPanicked
  | serverExitErr (e : Nat)
  | blobConfigLoad (e : Nat)
deriving DecidableEq, Repr

/-- The tail of `start_server` (inherited-fd mode): `server.start().await?`.
The `?` operator propagates an `Err` from the server, and a panic in the
server future unwinds straight through — there is no `catch_unwind` in this
mode. -/
def startServerRun (outcome : ServerOutcome) : PResult HostError Unit :=
  match outcome with
  | .ok => .ok ()
  | .err e => .error (.serverExitErr e)
  | .panics => .panicked

/-- The tail of `start_native_preimage_server` (native mode):
`AssertUnwindSafe(server.start()).catch_unwind().await` maps a panic to the
fatal error "Preimage server panicked", and the inner `Err` is mapped to the
fatal error "Preimage server exited with an error". -/
def startNativePreimageServerRun (outcome : ServerOutcome) : PResult HostError Unit :=
  match outcome with
  | .ok => .ok ()
  | .err e => .error (.serverExitErr e)
  | .panics => .error .serverPanicked

/-- The host CLI configuration as the two entry points consume it. Addresses
and the KV store handle are opaque numbers. `is_offline` and
`construct_kv_store` live in the CLI module outside the embedded sources;
modelled from the spec: `is_offline` says whether the host runs without live
RPC endpoints, `kv_store` is the store the CLI constructs. -/
structure HostCli where
  is_offline : Bool
  l1_beacon_address : Option Nat
  l1_node_address : Option Nat
  l2_node_address : Option Nat
  l2_head : Nat
  kv_store : Nat
deriving DecidableEq, Repr

/-- The Fetcher as constructed by the host entry points: shared KV store,
the L1 provider, the blob provider, the L2 provider and the L2 head. -/
structure Fetcher where
  kv_store : Nat
  l1_provider : Nat
  blob_provider : Nat
  l2_provider : Nat
  l2_head : Nat
deriving DecidableEq, Repr

/-- The host environment outside the embedded sources:
`OnlineBlobProvider::load_configs` hits the beacon endpoint, indexed here by
the beacon address; `http_provider` builds a provider from an address. -/
structure HostEnv where
  load_configs_result : Nat → Except Nat Unit
  http_provider : Nat → Nat

/-- The fetcher-construction block shared verbatim by `start_server` and
`start_server_and_native_client`: when the config is not offline, read the
beacon address (`expect` panics when absent), build the blob provider and
load its configs (an error is returned early), read the two node addresses
(`expect` panics when absent) and build `Some(Fetcher)`; when offline,
produce `None`. -/
def buildFetcher (env : HostEnv) (cfg : HostCli) : PResult HostError (Option Fetcher) :=
  if !cfg.is_offline then
    match cfg.l1_beacon_address with
    | none => .panicked
    | some beacon =>
      match env.load_configs_result beacon with
      | .error e => .error (.blobConfigLoad e)
      | .ok () =>
        match cfg.l1_node_address with
        | none => .panicked
        | some l1_addr =>
          match cfg.l2_node_address with
          | none => .panicked
          | some l2_addr =>
            .ok (some
              { kv_store := cfg.kv_store,
                l1_provider := env.http_provider l1_addr,
                blob_provider := beacon,
                l2_provider := env.http_provider l2_addr,
                l2_head := cfg.l2_head })
  else
    .ok none

/-- The fetcher passed to `PreimageServer::new` by `start_server`
(lines 47–67 of `bin/host/src/lib.rs`). -/
def startServerFetcher (env : HostEnv) (cfg : HostCli) :
    PResult HostError (Option Fetcher) :=
  buildFetcher env cfg

/-- The fetcher passed to `start_native_preimage_server` by
`start_server_and_native_client` (lines 86–108 of `bin/host/src/lib.rs`);
the block is textually identical to the one in `start_server` up to
`clone`/`as_ref` noise. -/
def startServerAndNativeClientFetcher (env : HostEnv) (cfg : HostCli) :
    PResult HostError (Option Fetcher) :=
  buildFetcher env cfg

/-! Specification functions and invariant predicates used by the theorems. -/

/-- What a cache-miss call to `header_by_hash` computes from the transport
alone: request `debug_getRawHeader`, then decode. The refinement claim is
that the cached operation always agrees with this pure function. -/
def headerByHashSpec (rpc : L1Rpc) (dec : L1Decoders) (hash : Nat) :
    Except ProvError Header :=
  match rpc.rawHeaderByHash hash with
  | .error e => .error (.rpc e)
  | .ok raw =>
    match dec.decodeHeader raw with
    | .ok header => .ok header
    | .error e => .error (.decode e)

/-- What a cache-miss call to `block_info_by_number` computes from the
transport alone. -/
def blockInfoByNumberSpec (rpc : L1Rpc) (dec : L1Decoders) (n : Nat) :
    Except ProvError BlockInfo :=
  match rpc.rawHeaderByNumber n with
  | .error e => .error (.rpc e)
  | .ok raw =>
    match dec.decodeHeader raw with
    | .error e => .error (.decode e)
    | .ok header =>
      .ok { hash := header.hash_slow, number := n,
            parent_hash := header.parent_hash, timestamp := header.timestamp }

/-- What a cache-miss call to `receipts_by_hash` computes from the transport
alone. -/
def receiptsByHashSpec (rpc : L1Rpc) (dec : L1Decoders) (h : Nat) :
    Except ProvError (List Receipt) :=
  match rpc.rawReceipts h with
  | .error e => .error (.rpc e)
  | .ok raws =>
    (raws.mapM (decodeRawReceipt dec.decodeReceiptWithBloom)).mapError
      ProvError.decode

/-- What a cache-miss call to `block_info_and_transactions_by_hash` computes
from the transport alone. -/
def blockInfoAndTxsSpec (rpc : L1Rpc) (dec : L1Decoders) (h : Nat) :
    Except ProvError (BlockInfo × List TxEnvelope) :=
  match rpc.rawBlock h with
  | .error e => .error (.rpc e)
  | .ok raw =>
    match dec.decodeBlock raw with
    | .error e => .error (.decode e)
    | .ok block =>
      .ok ({ hash := block.header.hash_slow, number := block.header.number,
             parent_hash := block.header.parent_hash,
             timestamp := block.header.timestamp }, block.body)

/-- What a cache-miss call to the L2 `payload_by_number` computes from the
transport alone. -/
def payloadByNumberSpec (rpc : L2Rpc) (dec : L2Decoders) (n : Nat) :
    Except ProvError L2ExecutionPayloadEnvelope :=
  match rpc.rawBlockByNumber n with
  | .error e => .error (.rpc e)
  | .ok raw =>
    match dec.decodeOpBlock raw with
    | .error e => .error (.decode e)
    | .ok block => .ok (dec.intoPayload block)

/-- A cache is well-sized: it holds no more entries than its capacity. -/
def LruCache.Ok (c : LruCache V) : Prop :=
  c.entries.length ≤ c.cap

/-- Every entry of the `header_by_hash` cache agrees with the pure
transport-plus-decode function. -/
def HeaderCacheConsistent (rpc : L1Rpc) (dec : L1Decoders)
    (p : AlloyChainProvider) : Prop :=
  ∀ kv ∈ p.header_by_hash_cache.entries, headerByHashSpec rpc dec kv.1 = .ok kv.2

/-- All four L1 provider caches have the given capacity. -/
def AlloyChainProvider.CapsAre (p : AlloyChainProvider) (n : Nat) : Prop :=
  p.header_by_hash_cache.cap = n ∧
  p.block_info_by_number_cache.cap = n ∧
  p.receipts_by_hash_cache.cap = n ∧
  p.block_info_and_transactions_by_hash_cache.cap = n

/-- All four L1 provider caches hold at most `n` entries. -/
def AlloyChainProvider.CachesBounded (p : AlloyChainProvider) (n : Nat) : Prop :=
  p.header_by_hash_cache.entries.length ≤ n ∧
  p.block_info_by_number_cache.entries.length ≤ n ∧
  p.receipts_by_hash_cache.entries.length ≤ n ∧
  p.block_info_and_transactions_by_hash_cache.entries.length ≤ n

/-- All three L2 provider caches have the given capacity. -/
def AlloyL2ChainProvider.CapsAre (p : AlloyL2ChainProvider) (n : Nat) : Prop :=
  p.payload_by_number_cache.cap = n ∧
  p.l2_block_info_by_number_cache.cap = n ∧
  p.system_config_by_number_cache.cap = n

/-- All three L2 provider caches hold at most `n` entries. -/
def AlloyL2ChainProvider.CachesBounded (p : AlloyL2ChainProvider) (n : Nat) : Prop :=
  p.payload_by_number_cache.entries.length ≤ n ∧
  p.l2_block_info_by_number_cache.entries.length ≤ n ∧
  p.system_config_by_number_cache.entries.length ≤ n

/-! Concrete instances on which the theorems are evaluated. -/

/-- A concrete stage over `Nat` state, cursor and attributes: cursor `0`
yields attributes `42`, cursor `1` drains (`Eof`), any other cursor fails
fatally; the origin advances only from state `1`; reset restores a state
determined by the L1 origin and the system config alone. -/
def demoStage : Stage Nat Nat Nat :=
  { next_attributes := fun s cursor =>
      if cursor = 0 then (.ok 42, s + 1)
      else if cursor = 1 then (.error .Eof, s + 1)
      else (.error (.other 7), s + 1),
    advance_origin := fun s =>
      if s = 1 then (.ok (), s + 1) else (.error (.other 3), s),
    origin := fun _ => none,
    reset := fun _ l1 sc => (.ok (), l1.hash + sc.params) }

/-- A concrete stateless L2 chain provider: the system config at height `n`
under config `cfg` is `n + cfg.params`. -/
def demoProvider : L2ChainProvider Nat :=
  { system_config_by_number := fun ps n cfg => (.ok ⟨n + cfg.params⟩, ps) }

/-- A concrete pipeline state with two prepared attribute sets. -/
def demoPipeline : DerivationPipeline Nat Nat Nat :=
  { attributes := 0, prepared := [10, 11], rollup_config := ⟨5⟩,
    l2_chain_provider := 0 }

/-- A concrete `ReceiptWithBloom` decoder: records the length of its input. -/
def demoReceiptDecoder : Bytes → Except DecodeError ReceiptWithBloom :=
  fun bs => .ok ⟨⟨bs.length⟩⟩

/-- A concrete L1 transport whose answers are all empty byte strings. -/
def demoL1Rpc : L1Rpc :=
  { rawHeaderByHash := fun _ => .ok [],
    rawHeaderByNumber := fun _ => .ok [],
    rawReceipts := fun _ => .ok [[2, 9], [200, 1]],
    rawBlock := fun _ => .ok [] }

/-- Concrete L1 decoders used by the witnesses. -/
def demoL1Decoders : L1Decoders :=
  { decodeHeader := fun bs => .ok ⟨bs.length, 0, 0, 0⟩,
    decodeReceiptWithBloom := demoReceiptDecoder,
    decodeBlock := fun _ => .ok ⟨⟨0, 0, 0, 0⟩, []⟩ }

/-- A concrete host environment: blob configs always load, providers are
identified by their address. -/
def demoEnv : HostEnv :=
  { load_configs_result := fun _ => .ok (),
    http_provider := fun addr => addr }

/-- A concrete online host configuration with all addresses present. -/
def demoOnlineCfg : HostCli :=
  { is_offline := false, l1_beacon_address := some 1, l1_node_address := some 2,
    l2_node_address := some 3, l2_head := 4, kv_store := 5 }

/-- The same configuration, offline. -/
def demoOfflineCfg : HostCli :=
  { demoOnlineCfg with is_offline := true }

/-! Helper lemmas about the LRU cache model. -/

/-- Filtering out an element that is present strictly shrinks a list. -/
theorem length_filter_lt_of_mem {α : Type} {l : List α} {q : α → Bool} {a : α}
    (ha : a ∈ l) (hqa : q a = false) : (l.filter q).length < l.length := by
  induction l with
  | nil => cases ha
  | cons b t ih =>
    rcases List.mem_cons.mp ha with h | h
    · subst h
      rw [List.filter_cons, hqa]
      exact Nat.lt_succ_of_le (List.length_filter_le q t)
    · rw [List.filter_cons]
      cases hb : q b
      · simpa using Nat.lt_succ_of_lt (ih h)
      · simpa using Nat.succ_lt_succ (ih h)

/-- A `get` never changes the capacity. -/
theorem LruCache.cap_get (c : LruCache V) (k : Nat) : ((c.get k).2).cap = c.cap := by
  unfold LruCache.get
  cases c.entries.find? (fun q => q.1 == k) <;> rfl

/-- A `put` never changes the capacity. -/
theorem LruCache.cap_put (c : LruCache V) (k : Nat) (v : V) :
    (c.put k v).cap = c.cap := rfl

/-- A `put` leaves at most `cap` entries. -/
theorem LruCache.length_put_le (c : LruCache V) (k : Nat) (v : V) :
    ((c.put k v).entries).length ≤ c.cap := by
  unfold LruCache.put
  rw [List.length_take]
  exact Nat.min_le_left _ _

/-- A `put` on a well-sized cache gives a well-sized cache. -/
theorem LruCache.Ok.put {c : LruCache V} (k : Nat) (v : V) : (c.put k v).Ok := by
  unfold LruCache.Ok
  rw [LruCache.cap_put]
  exact LruCache.length_put_le c k v

/-- A `get` on a well-sized cache gives a well-sized cache. -/
theorem LruCache.Ok.get {c : LruCache V} (h : c.Ok) (k : Nat) : ((c.get k).2).Ok := by
  unfold LruCache.Ok at h ⊢
  unfold LruCache.get
  cases hf : c.entries.find? (fun q => q.1 == k) with
  | none => simpa using h
  | some q =>
    have hq : (q.1 == k) = true := by simpa using List.find?_some hf
    have hlt : (c.entries.filter (fun r => r.1 != k)).length < c.entries.length := by
      refine length_filter_lt_of_mem (List.mem_of_find?_eq_some hf) ?_
      simp [bne, hq]
    simp only [List.length_cons]
    omega

/-- A fresh cache is well-sized. -/
theorem LruCache.Ok.new (cap : Nat) : (LruCache.new (V := V) cap).Ok := by
  simp [LruCache.Ok, LruCache.new]

/-- Every entry surviving a `get` was an entry before. -/
theorem LruCache.mem_get_entries {c : LruCache V} {k : Nat} {x : Nat × V}
    (hx : x ∈ ((c.get k).2).entries) : x ∈ c.entries := by
  unfold LruCache.get at hx
  cases hf : c.entries.find? (fun q => q.1 == k) with
  | none => rw [hf] at hx; exact hx
  | some q =>
    rw [hf] at hx
    rcases List.mem_cons.mp hx with h | h
    · have hq : (q.1 == k) = true := by simpa using List.find?_some hf
      have hk : q.1 = k := by simpa using hq
      have : x = q := by
        cases q with
        | mk a b => simp_all
      rw [this]
      exact List.mem_of_find?_eq_some hf
    · exact List.mem_filter.mp h |>.1

/-- Every entry after a `put` is the new pair or an old entry. -/
theorem LruCache.mem_put_entries {c : LruCache V} {k : Nat} {v : V} {x : Nat × V}
    (hx : x ∈ (c.put k v).entries) : x = (k, v) ∨ x ∈ c.entries := by
  unfold LruCache.put at hx
  have hx2 := List.take_subset _ _ hx
  rcases List.mem_cons.mp hx2 with h | h
  · exact Or.inl h
  · exact Or.inr (List.mem_filter.mp h |>.1)

/-! Claim theorems about the derivation pipeline driver. -/

/-- C1: for every cursor, `DerivationPipeline::step` returns
`PreparedAttributes` when the stage's `next_attributes` succeeds; when it
fails with `Eof`, `step` calls `advance_origin` and returns `AdvancedOrigin`
on success and `OriginAdvanceErr(e)` on failure; and for any non-Eof stage
error `e`, `step` returns `StepFailed(e)` without calling `advance_origin`
(the result is the same for every possible `advance_origin`, and the stage
state is exactly the one `next_attributes` left behind). -/
theorem step_result_classification {σ χ α π : Type} (st : Stage σ χ α)
    (p : DerivationPipeline σ π α) (cursor : χ) :
    (∀ a s, st.next_attributes p.attributes cursor = (.ok a, s) →
      (DerivationPipeline.step st p cursor).1 = .PreparedAttributes) ∧
    (∀ s, st.next_attributes p.attributes cursor = (.error .Eof, s) →
      (∀ s2, st.advance_origin s = (.ok (), s2) →
        (DerivationPipeline.step st p cursor).1 = .AdvancedOrigin) ∧
      (∀ e s2, st.advance_origin s = (.error e, s2) →
        (DerivationPipeline.step st p cursor).1 = .OriginAdvanceErr e)) ∧
    (∀ e s, e ≠ .Eof → st.next_attributes p.attributes cursor = (.error e, s) →
      (DerivationPipeline.step st p cursor).1 = .StepFailed e ∧
      (DerivationPipeline.step st p cursor).2.attributes = s ∧
      ∀ ao, DerivationPipeline.step { st with advance_origin := ao } p cursor =
        DerivationPipeline.step st p cursor) := by
  refine ⟨?_, ?_, ?_⟩
  · intro a s h
    simp [DerivationPipeline.step, h]
  · intro s h
    constructor
    · intro s2 h2
      simp [DerivationPipeline.step, h, h2]
    · intro e s2 h2
      simp [DerivationPipeline.step, h, h2]
  · intro e s hne h
    cases e with
    | Eof => exact absurd rfl hne
    | other code => simp [DerivationPipeline.step, h]

/-- Witness for C1 on `demoStage`: cursor `0` prepares attributes, cursor `1`
hits `Eof` and advances the origin from state `0` (and fails to from state
`1`), cursor `2` fails fatally with error code `7`. -/
theorem step_result_classification_witness :
    (DerivationPipeline.step demoStage demoPipeline 0).1 = .PreparedAttributes ∧
    (DerivationPipeline.step demoStage demoPipeline 1).1 = .AdvancedOrigin ∧
    (DerivationPipeline.step demoStage { demoPipeline with attributes := 1 } 1).1
      = .OriginAdvanceErr (.other 3) ∧
    (DerivationPipeline.step demoStage demoPipeline 2).1 = .StepFailed (.other 7) := by
  refine ⟨?_, ?_, ?_, ?_⟩
  · exact (step_result_classification demoStage demoPipeline 0).1 42 1 rfl
  · exact ((step_result_classification demoStage demoPipeline 1).2.1 1 rfl).1 2 rfl
  · exact ((step_result_classification demoStage
      { demoPipeline with attributes := 1 } 1).2.1 2 rfl).2 (.other 3) 2 rfl
  · exact ((step_result_classification demoStage demoPipeline 2).2.2 (.other 7) 1
      (by decide) rfl).1

/-- C2: a `step` returning `PreparedAttributes` appends exactly one attribute
set at the back of the prepared queue (so the length grows by one and the
previous entries keep their order); a `next` returning `Some` pops exactly
the front element (so the length shrinks by one and the remaining entries
keep their order). -/
theorem step_next_queue_discipline {σ χ α π : Type} (st : Stage σ χ α)
    (p : DerivationPipeline σ π α) (cursor : χ) :
    ((DerivationPipeline.step st p cursor).1 = .PreparedAttributes →
      ∃ a, (DerivationPipeline.step st p cursor).2.prepared = p.prepared ++ [a] ∧
        (DerivationPipeline.step st p cursor).2.prepared.length
          = p.prepared.length + 1) ∧
    (∀ a, (DerivationPipeline.next p).1 = some a →
      p.prepared = a :: (DerivationPipeline.next p).2.prepared ∧
      (DerivationPipeline.next p).2.prepared.length + 1 = p.prepared.length) := by
  constructor
  · intro h
    rcases hna : st.next_attributes p.attributes cursor with ⟨r, s⟩
    cases r with
    | ok a =>
      refine ⟨a, ?_, ?_⟩ <;> simp [DerivationPipeline.step, hna]
    | error e =>
      exfalso
      cases e with
      | Eof =>
        rcases hao : st.advance_origin s with ⟨r2, s2⟩
        cases r2 with
        | ok u => simp [DerivationPipeline.step, hna, hao] at h
        | error e2 => simp [DerivationPipeline.step, hna, hao] at h
      | other code => simp [DerivationPipeline.step, hna] at h
  · intro a h
    cases hp : p.prepared with
    | nil => simp [DerivationPipeline.next, hp] at h
    | cons b rest =>
      have hb : b = a := by simpa [DerivationPipeline.next, hp] using h
      subst hb
      constructor <;> simp [DerivationPipeline.next, hp]

/-- Witness for C2 on `demoPipeline`: stepping at cursor `0` appends `42`
behind the two queued attribute sets, and `next` pops the front set `10`. -/
theorem step_next_queue_discipline_witness :
    (DerivationPipeline.step demoStage demoPipeline 0).2.prepared = [10, 11, 42] ∧
    demoPipeline.prepared
      = 10 :: (DerivationPipeline.next demoPipeline).2.prepared := by
  constructor
  · obtain ⟨a, ha, -⟩ :=
      (step_next_queue_discipline demoStage demoPipeline 0).1 (by decide)
    have : a = 42 := by
      have := ha
      simp [DerivationPipeline.step, demoStage, demoPipeline] at this
      omega
    rw [ha, this]
    rfl
  · exact ((step_next_queue_discipline demoStage demoPipeline 0).2 10 (by decide)).1

/-- C3: `DerivationPipeline::reset` fetches the system config at
`l2_block_info.number` (under the pipeline's rollup config) from the L2
chain provider and hands exactly that config, together with
`l1_block_info`, to the stage stack's reset; it returns `Ok(())` when the
stage reset returns `Ok` or `Eof`, propagates a provider failure, and
returns the stage error for any non-Eof stage failure. -/
theorem reset_behaviour {σ χ α π : Type} (st : Stage σ χ α)
    (prov : L2ChainProvider π) (p : DerivationPipeline σ π α)
    (l2_block_info l1_block_info : BlockInfo) :
    (∀ e pr, prov.system_config_by_number p.l2_chain_provider l2_block_info.number
        p.rollup_config = (.error e, pr) →
      (DerivationPipeline.reset st prov p l2_block_info l1_block_info).1
        = .error (.provider e)) ∧
    (∀ sc pr, prov.system_config_by_number p.l2_chain_provider l2_block_info.number
        p.rollup_config = (.ok sc, pr) →
      (∀ s, st.reset p.attributes l1_block_info sc = (.ok (), s) →
        (DerivationPipeline.reset st prov p l2_block_info l1_block_info).1
          = .ok () ∧
        (DerivationPipeline.reset st prov p l2_block_info l1_block_info).2.attributes
          = s) ∧
      (∀ s, st.reset p.attributes l1_block_info sc = (.error .Eof, s) →
        (DerivationPipeline.reset st prov p l2_block_info l1_block_info).1
          = .ok ()) ∧
      (∀ e s, e ≠ .Eof → st.reset p.attributes l1_block_info sc = (.error e, s) →
        (DerivationPipeline.reset st prov p l2_block_info l1_block_info).1
          = .error (.stage e))) := by
  constructor
  · intro e pr h
    simp [DerivationPipeline.reset, h]
  · intro sc pr h
    refine ⟨?_, ?_, ?_⟩
    · intro s h2
      constructor <;> simp [DerivationPipeline.reset, h, h2]
    · intro s h2
      simp [DerivationPipeline.reset, h, h2]
    · intro e s hne h2
      cases e with
      | Eof => exact absurd rfl hne
      | other code => simp [DerivationPipeline.reset, h, h2]

/-- Witness for C3 on `demoPipeline` with `demoProvider` and `demoStage`:
resetting at L2 height `3` fetches the config `3 + 5 = 8` and the stage
reset succeeds, restoring stage state `1 + 8 = 9`. -/
theorem reset_behaviour_witness :
    (DerivationPipeline.reset demoStage demoProvider demoPipeline
      ⟨2, 3, 0, 0⟩ ⟨1, 0, 0, 0⟩).1 = .ok () ∧
    (DerivationPipeline.reset demoStage demoProvider demoPipeline
      ⟨2, 3, 0, 0⟩ ⟨1, 0, 0, 0⟩).2.attributes = 9 := by
  exact ((reset_behaviour demoStage demoProvider demoPipeline
    ⟨2, 3, 0, 0⟩ ⟨1, 0, 0, 0⟩).2 ⟨8⟩ 0 rfl).1 9 rfl

/-- C4: under determinism of the collaborators — the stage reset restores a
state depending only on its `(l1_origin, system_config)` arguments, and
repeating an identical system-config query returns the same answer and
leaves the provider state fixed — running `reset(a, b)` twice leaves the
pipeline in exactly the post-state of a single call (and returns the same
result). -/
theorem reset_idempotent {σ χ α π : Type} (st : Stage σ χ α)
    (prov : L2ChainProvider π) (p : DerivationPipeline σ π α)
    (a b : BlockInfo)
    (hst : ∀ s s' l1 sc, st.reset s l1 sc = st.reset s' l1 sc)
    (hprov : ∀ ps n cfg,
      prov.system_config_by_number (prov.system_config_by_number ps n cfg).2 n cfg
        = prov.system_config_by_number ps n cfg) :
    (DerivationPipeline.reset st prov
        (DerivationPipeline.reset st prov p a b).2 a b).2
      = (DerivationPipeline.reset st prov p a b).2 ∧
    (DerivationPipeline.reset st prov
        (DerivationPipeline.reset st prov p a b).2 a b).1
      = (DerivationPipeline.reset st prov p a b).1 := by
  rcases hq : prov.system_config_by_number p.l2_chain_provider a.number
      p.rollup_config with ⟨r, pr⟩
  have hq2 := hprov p.l2_chain_provider a.number p.rollup_config
  rw [hq] at hq2
  cases r with
  | error e =>
    constructor <;>
      simp [DerivationPipeline.reset, hq, hq2]
  | ok sc =>
    rcases hr : st.reset p.attributes b sc with ⟨res, s⟩
    have hr2 : st.reset s b sc = (res, s) := by
      rw [hst s p.attributes b sc, hr]
    cases res with
    | ok u =>
      constructor <;>
        simp [DerivationPipeline.reset, hq, hq2, hr, hr2]
    | error e =>
      cases e with
      | Eof =>
        constructor <;>
          simp [DerivationPipeline.reset, hq, hq2, hr, hr2]
      | other code =>
        constructor <;>
          simp [DerivationPipeline.reset, hq, hq2, hr, hr2]

/-- Witness for C4 on `demoStage` (whose reset ignores the prior stage
state) and the stateless `demoProvider`. -/
theorem reset_idempotent_witness :
    (DerivationPipeline.reset demoStage demoProvider
        (DerivationPipeline.reset demoStage demoProvider demoPipeline
          ⟨2, 3, 0, 0⟩ ⟨1, 0, 0, 0⟩).2 ⟨2, 3, 0, 0⟩ ⟨1, 0, 0, 0⟩).2
      = (DerivationPipeline.reset demoStage demoProvider demoPipeline
          ⟨2, 3, 0, 0⟩ ⟨1, 0, 0, 0⟩).2 := by
  exact (reset_idempotent demoStage demoProvider demoPipeline
    ⟨2, 3, 0, 0⟩ ⟨1, 0, 0, 0⟩ (fun _ _ _ _ => rfl) (fun _ _ _ => rfl)).1

/-- C10: the prepared queue and the rollup config are framed: a `step` not
returning `PreparedAttributes` leaves the prepared queue unchanged, `step`
never touches the rollup config, `reset` changes neither the prepared queue
nor the rollup config (attribute sets prepared before a reset survive it),
and `peek` is a pure observation of the queue front. -/
theorem pipeline_frame_conditions {σ χ α π : Type} (st : Stage σ χ α)
    (prov : L2ChainProvider π) (p : DerivationPipeline σ π α) (cursor : χ)
    (a b : BlockInfo) :
    ((DerivationPipeline.step st p cursor).1 ≠ .PreparedAttributes →
      (DerivationPipeline.step st p cursor).2.prepared = p.prepared) ∧
    (DerivationPipeline.step st p cursor).2.rollup_config = p.rollup_config ∧
    (DerivationPipeline.reset st prov p a b).2.prepared = p.prepared ∧
    (DerivationPipeline.reset st prov p a b).2.rollup_config = p.rollup_config ∧
    DerivationPipeline.peek p = p.prepared.head? := by
  refine ⟨?_, ?_, ?_, ?_, rfl⟩
  · intro h
    rcases hna : st.next_attributes p.attributes cursor with ⟨r, s⟩
    cases r with
    | ok v =>
      exfalso
      exact h (by simp [DerivationPipeline.step, hna])
    | error e =>
      cases e with
      | Eof =>
        rcases hao : st.advance_origin s with ⟨r2, s2⟩
        cases r2 with
        | ok u => simp [DerivationPipeline.step, hna, hao]
        | error e2 => simp [DerivationPipeline.step, hna, hao]
      | other code => simp [DerivationPipeline.step, hna]
  · rcases hna : st.next_attributes p.attributes cursor with ⟨r, s⟩
    cases r with
    | ok v => simp [DerivationPipeline.step, hna]
    | error e =>
      cases e with
      | Eof =>
        rcases hao : st.advance_origin s with ⟨r2, s2⟩
        cases r2 with
        | ok u => simp [DerivationPipeline.step, hna, hao]
        | error e2 => simp [DerivationPipeline.step, hna, hao]
      | other code => simp [DerivationPipeline.step, hna]
  · rcases hq : prov.system_config_by_number p.l2_chain_provider a.number
        p.rollup_config with ⟨r, pr⟩
    cases r with
    | error e => simp [DerivationPipeline.reset, hq]
    | ok sc =>
      rcases hr : st.reset p.attributes b sc with ⟨res, s⟩
      cases res with
      | ok u => simp [DerivationPipeline.reset, hq, hr]
      | error e =>
        cases e with
        | Eof => simp [DerivationPipeline.reset, hq, hr]
        | other code => simp [DerivationPipeline.reset, hq, hr]
  · rcases hq : prov.system_config_by_number p.l2_chain_provider a.number
        p.rollup_config with ⟨r, pr⟩
    cases r with
    | error e => simp [DerivationPipeline.reset, hq]
    | ok sc =>
      rcases hr : st.reset p.attributes b sc with ⟨res, s⟩
      cases res with
      | ok u => simp [DerivationPipeline.reset, hq, hr]
      | error e =>
        cases e with
        | Eof => simp [DerivationPipeline.reset, hq, hr]
        | other code => simp [DerivationPipeline.reset, hq, hr]

/-- Witness for C10: a `step` hitting `Eof` on `demoPipeline` leaves the two
queued attribute sets in place. -/
theorem pipeline_frame_conditions_witness :
    (DerivationPipeline.step demoStage demoPipeline 1).2.prepared = [10, 11] := by
  exact (pipeline_frame_conditions demoStage demoProvider demoPipeline 1
    ⟨2, 3, 0, 0⟩ ⟨1, 0, 0, 0⟩).1 (by decide)

/-! Claim theorems about the alloy chain providers. -/

/-- C5: the per-receipt decoder inside `receipts_by_hash` strips exactly one
leading type byte before RLP-decoding the inner `ReceiptWithBloom` when the
raw byte string is non-empty and its first byte is at most `0x03`
(`TxType::Eip4844`); otherwise — empty input, or a first byte above `0x03`
such as the `≥ 0xc0` list prefix of a legacy receipt — the bytes reach the
inner decoder unmodified. On a cache miss `receipts_by_hash` decodes every
raw string returned by `debug_getRawReceipts` this way. -/
theorem receipts_type_byte_strip
    (dec : Bytes → Except DecodeError ReceiptWithBloom) (r : Bytes) :
    (∀ b rest, r = b :: rest → b ≤ 3 →
      decodeRawReceipt dec r = (dec rest).map (fun rb => rb.receipt)) ∧
    (∀ b rest, r = b :: rest → ¬ b ≤ 3 →
      decodeRawReceipt dec r = (dec (b :: rest)).map (fun rb => rb.receipt)) ∧
    (r = [] → decodeRawReceipt dec r = (dec r).map (fun rb => rb.receipt)) ∧
    (∀ (rpc : L1Rpc) (decs : L1Decoders) (p : AlloyChainProvider)
        (hash : Nat) (raws : List Bytes),
      p.receipts_by_hash_cache.entries = [] →
      rpc.rawReceipts hash = .ok raws →
      (AlloyChainProvider.receipts_by_hash rpc decs p hash).1 =
        (raws.mapM (decodeRawReceipt decs.decodeReceiptWithBloom)).mapError
          ProvError.decode) := by
  refine ⟨?_, ?_, ?_, ?_⟩
  · intro b rest hr hb
    subst hr
    simp [decodeRawReceipt, txTypeEip4844, hb]
  · intro b rest hr hb
    subst hr
    simp [decodeRawReceipt, txTypeEip4844, hb]
  · intro hr
    subst hr
    simp [decodeRawReceipt]
  · intro rpc decs p hash raws hcache hraw
    have hget : p.receipts_by_hash_cache.get hash = (none, p.receipts_by_hash_cache) := by
      unfold LruCache.get
      rw [hcache]
      rfl
    cases hm : raws.mapM (decodeRawReceipt decs.decodeReceiptWithBloom) with
    | error e =>
      simp only [AlloyChainProvider.receipts_by_hash, hget, hraw, hm]
      rfl
    | ok receipts =>
      simp only [AlloyChainProvider.receipts_by_hash, hget, hraw, hm]
      rfl

/-- Witness for C5: a typed envelope `[0x02, 0x09]` loses its type byte, a
legacy receipt starting with the list prefix `0xc8` is decoded unmodified,
and `receipts_by_hash` on a fresh provider decodes `demoL1Rpc`'s two raw
receipts accordingly (lengths `1` and `2` under `demoReceiptDecoder`). -/
theorem receipts_type_byte_strip_witness :
    decodeRawReceipt demoReceiptDecoder [2, 9] = .ok ⟨1⟩ ∧
    decodeRawReceipt demoReceiptDecoder [200, 1] = .ok ⟨2⟩ ∧
    (AlloyChainProvider.receipts_by_hash demoL1Rpc demoL1Decoders
      AlloyChainProvider.new 0).1 = .ok [⟨1⟩, ⟨2⟩] := by
  refine ⟨?_, ?_, ?_⟩
  · rw [(receipts_type_byte_strip demoReceiptDecoder [2, 9]).1 2 [9] rfl
      (by decide)]
    rfl
  · rw [(receipts_type_byte_strip demoReceiptDecoder [200, 1]).2.1 200 [1] rfl
      (by decide)]
    rfl
  · rw [(receipts_type_byte_strip demoReceiptDecoder []).2.2.2 demoL1Rpc
      demoL1Decoders AlloyChainProvider.new 0 [[2, 9], [200, 1]] rfl rfl]
    rfl

/-! Helper lemmas for the cache invariants of the L1 provider: each
operation leaves every cache either untouched, promoted by a `get`, or
extended by one `put`; the `header_by_hash` cache additionally only ever
receives entries that agree with `headerByHashSpec`. -/

/-- Cache effects of `header_by_hash`: the other three caches are untouched,
and its own cache is promoted, untouched, or extended by a decoded header
that agrees with the pure spec. -/
theorem header_by_hash_cache_shape (rpc : L1Rpc) (dec : L1Decoders)
    (p : AlloyChainProvider) (h : Nat) :
    ((AlloyChainProvider.header_by_hash rpc dec p h).2.header_by_hash_cache
        = (p.header_by_hash_cache.get h).2 ∨
      (AlloyChainProvider.header_by_hash rpc dec p h).2.header_by_hash_cache
        = p.header_by_hash_cache ∨
      ∃ hd, headerByHashSpec rpc dec h = .ok hd ∧
        (AlloyChainProvider.header_by_hash rpc dec p h).2.header_by_hash_cache
          = p.header_by_hash_cache.put h hd) ∧
    (AlloyChainProvider.header_by_hash rpc dec p h).2.block_info_by_number_cache
      = p.block_info_by_number_cache ∧
    (AlloyChainProvider.header_by_hash rpc dec p h).2.receipts_by_hash_cache
      = p.receipts_by_hash_cache ∧
    (AlloyChainProvider.header_by_hash rpc dec p h).2.block_info_and_transactions_by_hash_cache
      = p.block_info_and_transactions_by_hash_cache := by
  rcases hg : p.header_by_hash_cache.get h with ⟨o, c⟩
  cases o with
  | some header =>
    refine ⟨Or.inl ?_, ?_, ?_, ?_⟩ <;>
      simp [AlloyChainProvider.header_by_hash, hg]
  | none =>
    cases hr : rpc.rawHeaderByHash h with
    | error e =>
      refine ⟨Or.inr (Or.inl ?_), ?_, ?_, ?_⟩ <;>
        simp [AlloyChainProvider.header_by_hash, hg, hr]
    | ok raw =>
      cases hd : dec.decodeHeader raw with
      | error e =>
        refine ⟨Or.inr (Or.inl ?_), ?_, ?_, ?_⟩ <;>
          simp [AlloyChainProvider.header_by_hash, hg, hr, hd]
      | ok header =>
        refine ⟨Or.inr (Or.inr ⟨header, ?_, ?_⟩), ?_, ?_, ?_⟩ <;>
          simp [AlloyChainProvider.header_by_hash, headerByHashSpec, hg, hr, hd]

/-- Cache effects of `block_info_by_number`: only its own cache changes, by a
`get` promotion or a single `put`. -/
theorem block_info_by_number_cache_shape (rpc : L1Rpc) (dec : L1Decoders)
    (p : AlloyChainProvider) (n : Nat) :
    ((AlloyChainProvider.block_info_by_number rpc dec p n).2.block_info_by_number_cache
        = (p.block_info_by_number_cache.get n).2 ∨
      (AlloyChainProvider.block_info_by_number rpc dec p n).2.block_info_by_number_cache
        = p.block_info_by_number_cache ∨
      ∃ bi, blockInfoByNumberSpec rpc dec n = .ok bi ∧
        (AlloyChainProvider.block_info_by_number rpc dec p n).2.block_info_by_number_cache
          = p.block_info_by_number_cache.put n bi) ∧
    (AlloyChainProvider.block_info_by_number rpc dec p n).2.header_by_hash_cache
      = p.header_by_hash_cache ∧
    (AlloyChainProvider.block_info_by_number rpc dec p n).2.receipts_by_hash_cache
      = p.receipts_by_hash_cache ∧
    (AlloyChainProvider.block_info_by_number rpc dec p n).2.block_info_and_transactions_by_hash_cache
      = p.block_info_and_transactions_by_hash_cache := by
  rcases hg : p.block_info_by_number_cache.get n with ⟨o, c⟩
  cases o with
  | some bi =>
    refine ⟨Or.inl ?_, ?_, ?_, ?_⟩ <;>
      simp [AlloyChainProvider.block_info_by_number, hg]
  | none =>
    cases hr : rpc.rawHeaderByNumber n with
    | error e =>
      refine ⟨Or.inr (Or.inl ?_), ?_, ?_, ?_⟩ <;>
        simp [AlloyChainProvider.block_info_by_number, hg, hr]
    | ok raw =>
      cases hd : dec.decodeHeader raw with
      | error e =>
        refine ⟨Or.inr (Or.inl ?_), ?_, ?_, ?_⟩ <;>
          simp [AlloyChainProvider.block_info_by_number, hg, hr, hd]
      | ok header =>
        refine ⟨Or.inr (Or.inr
          ⟨⟨header.hash_slow, n, header.parent_hash, header.timestamp⟩, ?_, ?_⟩),
          ?_, ?_, ?_⟩ <;>
          simp [AlloyChainProvider.block_info_by_number, blockInfoByNumberSpec,
            hg, hr, hd]

/-- Cache effects of `receipts_by_hash`: only its own cache changes, by a
`get` promotion or a single `put`. -/
theorem receipts_by_hash_cache_shape (rpc : L1Rpc) (dec : L1Decoders)
    (p : AlloyChainProvider) (h : Nat) :
    ((AlloyChainProvider.receipts_by_hash rpc dec p h).2.receipts_by_hash_cache
        = (p.receipts_by_hash_cache.get h).2 ∨
      (AlloyChainProvider.receipts_by_hash rpc dec p h).2.receipts_by_hash_cache
        = p.receipts_by_hash_cache ∨
      ∃ rs, receiptsByHashSpec rpc dec h = .ok rs ∧
        (AlloyChainProvider.receipts_by_hash rpc dec p h).2.receipts_by_hash_cache
          = p.receipts_by_hash_cache.put h rs) ∧
    (AlloyChainProvider.receipts_by_hash rpc dec p h).2.header_by_hash_cache
      = p.header_by_hash_cache ∧
    (AlloyChainProvider.receipts_by_hash rpc dec p h).2.block_info_by_number_cache
      = p.block_info_by_number_cache ∧
    (AlloyChainProvider.receipts_by_hash rpc dec p h).2.block_info_and_transactions_by_hash_cache
      = p.block_info_and_transactions_by_hash_cache := by
  rcases hg : p.receipts_by_hash_cache.get h with ⟨o, c⟩
  cases o with
  | some rs =>
    refine ⟨Or.inl ?_, ?_, ?_, ?_⟩ <;>
      simp only [AlloyChainProvider.receipts_by_hash, hg] <;> rfl
  | none =>
    cases hr : rpc.rawReceipts h with
    | error e =>
      refine ⟨Or.inr (Or.inl ?_), ?_, ?_, ?_⟩ <;>
        simp only [AlloyChainProvider.receipts_by_hash, hg, hr] <;> rfl
    | ok raws =>
      cases hm : raws.mapM (decodeRawReceipt dec.decodeReceiptWithBloom) with
      | error e =>
        refine ⟨Or.inr (Or.inl ?_), ?_, ?_, ?_⟩ <;>
          simp only [AlloyChainProvider.receipts_by_hash, hg, hr, hm] <;> rfl
      | ok receipts =>
        refine ⟨Or.inr (Or.inr ⟨receipts, ?_, ?_⟩), ?_, ?_, ?_⟩ <;>
          simp only [AlloyChainProvider.receipts_by_hash, receiptsByHashSpec,
            hg, hr, hm] <;> rfl

/-- Cache effects of `block_info_and_transactions_by_hash`: only its own
cache changes, by a `get` promotion or a single `put`. -/
theorem block_info_and_txs_cache_shape (rpc : L1Rpc) (dec : L1Decoders)
    (p : AlloyChainProvider) (h : Nat) :
    ((AlloyChainProvider.block_info_and_transactions_by_hash rpc dec p h).2.block_info_and_transactions_by_hash_cache
        = (p.block_info_and_transactions_by_hash_cache.get h).2 ∨
      (AlloyChainProvider.block_info_and_transactions_by_hash rpc dec p h).2.block_info_and_transactions_by_hash_cache
        = p.block_info_and_transactions_by_hash_cache ∨
      ∃ bt, blockInfoAndTxsSpec rpc dec h = .ok bt ∧
        (AlloyChainProvider.block_info_and_transactions_by_hash rpc dec p h).2.block_info_and_transactions_by_hash_cache
          = p.block_info_and_transactions_by_hash_cache.put h bt) ∧
    (AlloyChainProvider.block_info_and_transactions_by_hash rpc dec p h).2.header_by_hash_cache
      = p.header_by_hash_cache ∧
    (AlloyChainProvider.block_info_and_transactions_by_hash rpc dec p h).2.block_info_by_number_cache
      = p.block_info_by_number_cache ∧
    (AlloyChainProvider.block_info_and_transactions_by_hash rpc dec p h).2.receipts_by_hash_cache
      = p.receipts_by_hash_cache := by
  rcases hg : p.block_info_and_transactions_by_hash_cache.get h with ⟨o, c⟩
  cases o with
  | some bt =>
    refine ⟨Or.inl ?_, ?_, ?_, ?_⟩ <;>
      simp [AlloyChainProvider.block_info_and_transactions_by_hash, hg]
  | none =>
    cases hr : rpc.rawBlock h with
    | error e =>
      refine ⟨Or.inr (Or.inl ?_), ?_, ?_, ?_⟩ <;>
        simp [AlloyChainProvider.block_info_and_transactions_by_hash, hg, hr]
    | ok raw =>
      cases hd : dec.decodeBlock raw with
      | error e =>
        refine ⟨Or.inr (Or.inl ?_), ?_, ?_, ?_⟩ <;>
          simp [AlloyChainProvider.block_info_and_transactions_by_hash, hg, hr, hd]
      | ok block =>
        refine ⟨Or.inr (Or.inr
          ⟨(⟨block.header.hash_slow, block.header.number, block.header.parent_hash,
              block.header.timestamp⟩, block.body), ?_, ?_⟩), ?_, ?_, ?_⟩ <;>
          simp [AlloyChainProvider.block_info_and_transactions_by_hash,
            blockInfoAndTxsSpec, hg, hr, hd]

/-- Every provider operation preserves consistency of the header cache. -/
theorem exec_preserves_header_consistent (rpc : L1Rpc) (dec : L1Decoders)
    (p : AlloyChainProvider) (op : L1Op)
    (hcons : HeaderCacheConsistent rpc dec p) :
    HeaderCacheConsistent rpc dec (AlloyChainProvider.exec rpc dec p op) := by
  cases op with
  | headerByHash h =>
    rcases (header_by_hash_cache_shape rpc dec p h).1 with hs | hs | ⟨hd, hspec, hs⟩
    · intro kv hkv
      rw [AlloyChainProvider.exec] at hkv
      rw [hs] at hkv
      exact hcons kv (LruCache.mem_get_entries hkv)
    · intro kv hkv
      rw [AlloyChainProvider.exec] at hkv
      rw [hs] at hkv
      exact hcons kv hkv
    · intro kv hkv
      rw [AlloyChainProvider.exec] at hkv
      rw [hs] at hkv
      rcases LruCache.mem_put_entries hkv with he | he
      · rw [he]
        exact hspec
      · exact hcons kv he
  | blockInfoByNumber n =>
    intro kv hkv
    rw [AlloyChainProvider.exec] at hkv
    rw [(block_info_by_number_cache_shape rpc dec p n).2.1] at hkv
    exact hcons kv hkv
  | receiptsByHash h =>
    intro kv hkv
    rw [AlloyChainProvider.exec] at hkv
    rw [(receipts_by_hash_cache_shape rpc dec p h).2.1] at hkv
    exact hcons kv hkv
  | blockInfoAndTransactionsByHash h =>
    intro kv hkv
    rw [AlloyChainProvider.exec] at hkv
    rw [(block_info_and_txs_cache_shape rpc dec p h).2.1] at hkv
    exact hcons kv hkv

/-- The header cache stays consistent along any operation sequence. -/
theorem foldl_preserves_header_consistent (rpc : L1Rpc) (dec : L1Decoders)
    (ops : List L1Op) :
    ∀ p, HeaderCacheConsistent rpc dec p →
      HeaderCacheConsistent rpc dec
        (ops.foldl (AlloyChainProvider.exec rpc dec) p) := by
  induction ops with
  | nil => intro p hp; exact hp
  | cons op rest ih =>
    intro p hp
    exact ih _ (exec_preserves_header_consistent rpc dec p op hp)

/-! Helper lemmas for the size bound of every cache. -/

/-- A promoted cache keeps the capacity and the size bound. -/
theorem LruCache.bound_get (c : LruCache V) (k n : Nat)
    (hcap : c.cap = n) (hlen : c.entries.length ≤ n) :
    ((c.get k).2).cap = n ∧ ((c.get k).2).entries.length ≤ n := by
  have hok : c.Ok := by rw [LruCache.Ok, hcap]; exact hlen
  have h2 := LruCache.Ok.get hok k
  rw [LruCache.Ok, LruCache.cap_get, hcap] at h2
  exact ⟨by rw [LruCache.cap_get, hcap], h2⟩

/-- An extended cache keeps the capacity and the size bound. -/
theorem LruCache.bound_put (c : LruCache V) (k : Nat) (v : V) (n : Nat)
    (hcap : c.cap = n) :
    ((c.put k v)).cap = n ∧ ((c.put k v)).entries.length ≤ n := by
  have h2 := LruCache.length_put_le c k v
  rw [hcap] at h2
  exact ⟨by rw [LruCache.cap_put, hcap], h2⟩

/-- A cache that is promoted, untouched, or extended keeps the capacity and
the size bound. -/
theorem LruCache.bound_shape {c c' : LruCache V} {k n : Nat}
    (hs : c' = (c.get k).2 ∨ c' = c ∨ ∃ v, c' = c.put k v)
    (hcap : c.cap = n) (hlen : c.entries.length ≤ n) :
    c'.cap = n ∧ c'.entries.length ≤ n := by
  rcases hs with hs | hs | ⟨v, hs⟩
  · rw [hs]; exact LruCache.bound_get c k n hcap hlen
  · rw [hs]; exact ⟨hcap, hlen⟩
  · rw [hs]; exact LruCache.bound_put c k v n hcap

/-- Variant of `LruCache.bound_shape` where the inserted value carries a
side condition. -/
theorem LruCache.bound_shape_spec {V : Type} {c c' : LruCache V} {k n : Nat}
    {Q : V → Prop}
    (hs : c' = (c.get k).2 ∨ c' = c ∨ ∃ v, Q v ∧ c' = c.put k v)
    (hcap : c.cap = n) (hlen : c.entries.length ≤ n) :
    c'.cap = n ∧ c'.entries.length ≤ n := by
  rcases hs with hs | hs | ⟨v, -, hs⟩
  · rw [hs]; exact LruCache.bound_get c k n hcap hlen
  · rw [hs]; exact ⟨hcap, hlen⟩
  · rw [hs]; exact LruCache.bound_put c k v n hcap

/-- One L1 provider operation preserves the capacities and size bounds of
all four caches. -/
theorem exec_preserves_bounded (rpc : L1Rpc) (dec : L1Decoders)
    (p : AlloyChainProvider) (op : L1Op)
    (hcap : p.CapsAre CACHE_SIZE) (hb : p.CachesBounded CACHE_SIZE) :
    (AlloyChainProvider.exec rpc dec p op).CapsAre CACHE_SIZE ∧
    (AlloyChainProvider.exec rpc dec p op).CachesBounded CACHE_SIZE := by
  obtain ⟨hc1, hc2, hc3, hc4⟩ : _ ∧ _ ∧ _ ∧ _ := hcap
  obtain ⟨hb1, hb2, hb3, hb4⟩ : _ ∧ _ ∧ _ ∧ _ := hb
  cases op with
  | headerByHash h =>
    obtain ⟨hs, h2, h3, h4⟩ := header_by_hash_cache_shape rpc dec p h
    obtain ⟨ha, hl⟩ := LruCache.bound_shape_spec hs hc1 hb1
    rw [AlloyChainProvider.exec]
    refine ⟨⟨ha, ?_, ?_, ?_⟩, ⟨hl, ?_, ?_, ?_⟩⟩ <;> simp only [h2, h3, h4] <;> assumption
  | blockInfoByNumber n =>
    obtain ⟨hs, h2, h3, h4⟩ := block_info_by_number_cache_shape rpc dec p n
    obtain ⟨ha, hl⟩ := LruCache.bound_shape_spec hs hc2 hb2
    rw [AlloyChainProvider.exec]
    refine ⟨⟨?_, ha, ?_, ?_⟩, ⟨?_, hl, ?_, ?_⟩⟩ <;> simp only [h2, h3, h4] <;> assumption
  | receiptsByHash h =>
    obtain ⟨hs, h2, h3, h4⟩ := receipts_by_hash_cache_shape rpc dec p h
    obtain ⟨ha, hl⟩ := LruCache.bound_shape_spec hs hc3 hb3
    rw [AlloyChainProvider.exec]
    refine ⟨⟨?_, ?_, ha, ?_⟩, ⟨?_, ?_, hl, ?_⟩⟩ <;> simp only [h2, h3, h4] <;> assumption
  | blockInfoAndTransactionsByHash h =>
    obtain ⟨hs, h2, h3, h4⟩ := block_info_and_txs_cache_shape rpc dec p h
    obtain ⟨ha, hl⟩ := LruCache.bound_shape_spec hs hc4 hb4
    rw [AlloyChainProvider.exec]
    refine ⟨⟨?_, ?_, ?_, ha⟩, ⟨?_, ?_, ?_, hl⟩⟩ <;> simp only [h2, h3, h4] <;> assumption

/-- The capacities and size bounds hold along any L1 operation sequence. -/
theorem foldl_preserves_bounded (rpc : L1Rpc) (dec : L1Decoders)
    (ops : List L1Op) :
    ∀ p : AlloyChainProvider, p.CapsAre CACHE_SIZE → p.CachesBounded CACHE_SIZE →
      (ops.foldl (AlloyChainProvider.exec rpc dec) p).CapsAre CACHE_SIZE ∧
      (ops.foldl (AlloyChainProvider.exec rpc dec) p).CachesBounded CACHE_SIZE := by
  induction ops with
  | nil => intro p h1 h2; exact ⟨h1, h2⟩
  | cons op rest ih =>
    intro p h1 h2
    obtain ⟨h1', h2'⟩ := exec_preserves_bounded rpc dec p op h1 h2
    exact ih _ h1' h2'

/-- Cache effects of the L2 `payload_by_number`: only the payload cache
changes, by a `get` promotion or a single `put`; the rollup config is
untouched. -/
theorem payload_by_number_cache_shape (rpc : L2Rpc) (dec : L2Decoders)
    (p : AlloyL2ChainProvider) (n : Nat) :
    ((AlloyL2ChainProvider.payload_by_number rpc dec p n).2.payload_by_number_cache
        = (p.payload_by_number_cache.get n).2 ∨
      (AlloyL2ChainProvider.payload_by_number rpc dec p n).2.payload_by_number_cache
        = p.payload_by_number_cache ∨
      ∃ v, payloadByNumberSpec rpc dec n = .ok v ∧
        (AlloyL2ChainProvider.payload_by_number rpc dec p n).2.payload_by_number_cache
          = p.payload_by_number_cache.put n v) ∧
    (AlloyL2ChainProvider.payload_by_number rpc dec p n).2.l2_block_info_by_number_cache
      = p.l2_block_info_by_number_cache ∧
    (AlloyL2ChainProvider.payload_by_number rpc dec p n).2.system_config_by_number_cache
      = p.system_config_by_number_cache ∧
    (AlloyL2ChainProvider.payload_by_number rpc dec p n).2.rollup_config
      = p.rollup_config := by
  rcases hg : p.payload_by_number_cache.get n with ⟨o, c⟩
  cases o with
  | some payload =>
    refine ⟨Or.inl ?_, ?_, ?_, ?_⟩ <;>
      simp [AlloyL2ChainProvider.payload_by_number, hg]
  | none =>
    cases hr : rpc.rawBlockByNumber n with
    | error e =>
      refine ⟨Or.inr (Or.inl ?_), ?_, ?_, ?_⟩ <;>
        simp [AlloyL2ChainProvider.payload_by_number, hg, hr]
    | ok raw =>
      cases hd : dec.decodeOpBlock raw with
      | error e =>
        refine ⟨Or.inr (Or.inl ?_), ?_, ?_, ?_⟩ <;>
          simp [AlloyL2ChainProvider.payload_by_number, hg, hr, hd]
      | ok block =>
        refine ⟨Or.inr (Or.inr ⟨dec.intoPayload block, ?_, ?_⟩), ?_, ?_, ?_⟩ <;>
          simp [AlloyL2ChainProvider.payload_by_number, payloadByNumberSpec,
            hg, hr, hd]

/-- Cache effects of `l2_block_info_by_number`: its own cache changes by a
promotion or one `put`, the payload cache changes as a `payload_by_number`
call changes it, and the rest is untouched. -/
theorem l2_block_info_by_number_cache_shape (rpc : L2Rpc) (dec : L2Decoders)
    (p : AlloyL2ChainProvider) (n : Nat) :
    ((AlloyL2ChainProvider.l2_block_info_by_number rpc dec p n).2.l2_block_info_by_number_cache
        = (p.l2_block_info_by_number_cache.get n).2 ∨
      (AlloyL2ChainProvider.l2_block_info_by_number rpc dec p n).2.l2_block_info_by_number_cache
        = p.l2_block_info_by_number_cache ∨
      ∃ v, (AlloyL2ChainProvider.l2_block_info_by_number rpc dec p n).2.l2_block_info_by_number_cache
          = p.l2_block_info_by_number_cache.put n v) ∧
    ((AlloyL2ChainProvider.l2_block_info_by_number rpc dec p n).2.payload_by_number_cache
        = (p.payload_by_number_cache.get n).2 ∨
      (AlloyL2ChainProvider.l2_block_info_by_number rpc dec p n).2.payload_by_number_cache
        = p.payload_by_number_cache ∨
      ∃ v, payloadByNumberSpec rpc dec n = .ok v ∧
        (AlloyL2ChainProvider.l2_block_info_by_number rpc dec p n).2.payload_by_number_cache
          = p.payload_by_number_cache.put n v) ∧
    (AlloyL2ChainProvider.l2_block_info_by_number rpc dec p n).2.system_config_by_number_cache
      = p.system_config_by_number_cache ∧
    (AlloyL2ChainProvider.l2_block_info_by_number rpc dec p n).2.rollup_config
      = p.rollup_config := by
  obtain ⟨hps, hpl2, hpsys, hprc⟩ := payload_by_number_cache_shape rpc dec p n
  rcases hg : p.l2_block_info_by_number_cache.get n with ⟨o, c⟩
  cases o with
  | some l2i =>
    refine ⟨Or.inl ?_, Or.inr (Or.inl ?_), ?_, ?_⟩ <;>
      simp [AlloyL2ChainProvider.l2_block_info_by_number, hg]
  | none =>
    rcases hp : AlloyL2ChainProvider.payload_by_number rpc dec p n with ⟨r, p1⟩
    rw [hp] at hps hpl2 hpsys hprc
    dsimp only at hps hpl2 hpsys hprc
    cases r with
    | error e =>
      have hpost : (AlloyL2ChainProvider.l2_block_info_by_number rpc dec p n).2
          = p1 := by
        simp [AlloyL2ChainProvider.l2_block_info_by_number, hg, hp]
      rw [hpost]
      exact ⟨Or.inr (Or.inl hpl2), hps, hpsys, hprc⟩
    | ok payload =>
      cases hc : dec.to_l2_block_ref payload p1.rollup_config with
      | error e =>
        have hpost : (AlloyL2ChainProvider.l2_block_info_by_number rpc dec p n).2
            = p1 := by
          simp [AlloyL2ChainProvider.l2_block_info_by_number, hg, hp, hc]
        rw [hpost]
        exact ⟨Or.inr (Or.inl hpl2), hps, hpsys, hprc⟩
      | ok l2i =>
        have hpost : (AlloyL2ChainProvider.l2_block_info_by_number rpc dec p n).2
            = { p1 with l2_block_info_by_number_cache :=
                p1.l2_block_info_by_number_cache.put n l2i } := by
          simp [AlloyL2ChainProvider.l2_block_info_by_number, hg, hp, hc]
        rw [hpost]
        refine ⟨Or.inr (Or.inr ⟨l2i, ?_⟩), hps, hpsys, hprc⟩
        show p1.l2_block_info_by_number_cache.put n l2i
          = p.l2_block_info_by_number_cache.put n l2i
        rw [hpl2]

/-- Cache effects of `system_config_by_number`: its own cache changes by a
promotion or one `put`, the payload cache changes as a `payload_by_number`
call changes it, and the rest is untouched. -/
theorem system_config_by_number_cache_shape (rpc : L2Rpc) (dec : L2Decoders)
    (p : AlloyL2ChainProvider) (n : Nat) (cfg : RollupConfig) :
    ((AlloyL2ChainProvider.system_config_by_number rpc dec p n cfg).2.system_config_by_number_cache
        = (p.system_config_by_number_cache.get n).2 ∨
      (AlloyL2ChainProvider.system_config_by_number rpc dec p n cfg).2.system_config_by_number_cache
        = p.system_config_by_number_cache ∨
      ∃ v, (AlloyL2ChainProvider.system_config_by_number rpc dec p n cfg).2.system_config_by_number_cache
          = p.system_config_by_number_cache.put n v) ∧
    ((AlloyL2ChainProvider.system_config_by_number rpc dec p n cfg).2.payload_by_number_cache
        = (p.payload_by_number_cache.get n).2 ∨
      (AlloyL2ChainProvider.system_config_by_number rpc dec p n cfg).2.payload_by_number_cache
        = p.payload_by_number_cache ∨
      ∃ v, payloadByNumberSpec rpc dec n = .ok v ∧
        (AlloyL2ChainProvider.system_config_by_number rpc dec p n cfg).2.payload_by_number_cache
          = p.payload_by_number_cache.put n v) ∧
    (AlloyL2ChainProvider.system_config_by_number rpc dec p n cfg).2.l2_block_info_by_number_cache
      = p.l2_block_info_by_number_cache ∧
    (AlloyL2ChainProvider.system_config_by_number rpc dec p n cfg).2.rollup_config
      = p.rollup_config := by
  obtain ⟨hps, hpl2, hpsys, hprc⟩ := payload_by_number_cache_shape rpc dec p n
  rcases hg : p.system_config_by_number_cache.get n with ⟨o, c⟩
  cases o with
  | some sc =>
    refine ⟨Or.inl ?_, Or.inr (Or.inl ?_), ?_, ?_⟩ <;>
      simp [AlloyL2ChainProvider.system_config_by_number, hg]
  | none =>
    rcases hp : AlloyL2ChainProvider.payload_by_number rpc dec p n with ⟨r, p1⟩
    rw [hp] at hps hpl2 hpsys hprc
    dsimp only at hps hpl2 hpsys hprc
    cases r with
    | error e =>
      have hpost : (AlloyL2ChainProvider.system_config_by_number rpc dec p n cfg).2
          = p1 := by
        simp [AlloyL2ChainProvider.system_config_by_number, hg, hp]
      rw [hpost]
      exact ⟨Or.inr (Or.inl hpsys), hps, hpl2, hprc⟩
    | ok envelope =>
      cases hc : dec.to_system_config envelope cfg with
      | error e =>
        have hpost : (AlloyL2ChainProvider.system_config_by_number rpc dec p n cfg).2
            = p1 := by
          simp [AlloyL2ChainProvider.system_config_by_number, hg, hp, hc]
        rw [hpost]
        exact ⟨Or.inr (Or.inl hpsys), hps, hpl2, hprc⟩
      | ok sc =>
        have hpost : (AlloyL2ChainProvider.system_config_by_number rpc dec p n cfg).2
            = { p1 with system_config_by_number_cache :=
                p1.system_config_by_number_cache.put n sc } := by
          simp [AlloyL2ChainProvider.system_config_by_number, hg, hp, hc]
        rw [hpost]
        refine ⟨Or.inr (Or.inr ⟨sc, ?_⟩), hps, hpl2, hprc⟩
        show p1.system_config_by_number_cache.put n sc
          = p.system_config_by_number_cache.put n sc
        rw [hpsys]

/-- One L2 provider operation preserves the capacities and size bounds of
all three caches. -/
theorem l2_exec_preserves_bounded (rpc : L2Rpc) (dec : L2Decoders)
    (p : AlloyL2ChainProvider) (op : L2Op)
    (hcap : p.CapsAre CACHE_SIZE) (hb : p.CachesBounded CACHE_SIZE) :
    (AlloyL2ChainProvider.exec rpc dec p op).CapsAre CACHE_SIZE ∧
    (AlloyL2ChainProvider.exec rpc dec p op).CachesBounded CACHE_SIZE := by
  obtain ⟨hc1, hc2, hc3⟩ : _ ∧ _ ∧ _ := hcap
  obtain ⟨hb1, hb2, hb3⟩ : _ ∧ _ ∧ _ := hb
  cases op with
  | payloadByNumber n =>
    obtain ⟨hs, h2, h3, _⟩ := payload_by_number_cache_shape rpc dec p n
    obtain ⟨ha, hl⟩ := LruCache.bound_shape_spec hs hc1 hb1
    rw [AlloyL2ChainProvider.exec]
    refine ⟨⟨ha, ?_, ?_⟩, ⟨hl, ?_, ?_⟩⟩ <;> simp only [h2, h3] <;> assumption
  | l2BlockInfoByNumber n =>
    obtain ⟨hs, hps, h3, _⟩ := l2_block_info_by_number_cache_shape rpc dec p n
    obtain ⟨ha, hl⟩ := LruCache.bound_shape hs hc2 hb2
    obtain ⟨hpa, hpl⟩ := LruCache.bound_shape_spec hps hc1 hb1
    rw [AlloyL2ChainProvider.exec]
    refine ⟨⟨hpa, ha, ?_⟩, ⟨hpl, hl, ?_⟩⟩ <;> simp only [h3] <;> assumption
  | systemConfigByNumber n cfg =>
    obtain ⟨hs, hps, h3, _⟩ := system_config_by_number_cache_shape rpc dec p n cfg
    obtain ⟨ha, hl⟩ := LruCache.bound_shape hs hc3 hb3
    obtain ⟨hpa, hpl⟩ := LruCache.bound_shape_spec hps hc1 hb1
    rw [AlloyL2ChainProvider.exec]
    refine ⟨⟨hpa, ?_, ha⟩, ⟨hpl, ?_, hl⟩⟩ <;> simp only [h3] <;> assumption

/-- The capacities and size bounds hold along any L2 operation sequence. -/
theorem l2_foldl_preserves_bounded (rpc : L2Rpc) (dec : L2Decoders)
    (ops : List L2Op) :
    ∀ p : AlloyL2ChainProvider, p.CapsAre CACHE_SIZE → p.CachesBounded CACHE_SIZE →
      (ops.foldl (AlloyL2ChainProvider.exec rpc dec) p).CapsAre CACHE_SIZE ∧
      (ops.foldl (AlloyL2ChainProvider.exec rpc dec) p).CachesBounded CACHE_SIZE := by
  induction ops with
  | nil => intro p h1 h2; exact ⟨h1, h2⟩
  | cons op rest ih =>
    intro p h1 h2
    obtain ⟨h1', h2'⟩ := l2_exec_preserves_bounded rpc dec p op h1 h2
    exact ih _ h1' h2'

/-- C7: every LRU cache of `AlloyChainProvider` and `AlloyL2ChainProvider`
is created with capacity `CACHE_SIZE = 16`, the capacity never changes, and
after any sequence of provider operations every cache holds at most 16
entries. -/
theorem provider_caches_capacity_bounded (rpc : L1Rpc) (dec : L1Decoders)
    (ops : List L1Op) (rpc2 : L2Rpc) (dec2 : L2Decoders) (cfg : RollupConfig)
    (ops2 : List L2Op) :
    CACHE_SIZE = 16 ∧
    AlloyChainProvider.CapsAre AlloyChainProvider.new 16 ∧
    AlloyL2ChainProvider.CapsAre (AlloyL2ChainProvider.new cfg) 16 ∧
    AlloyChainProvider.CapsAre (AlloyChainProvider.run rpc dec ops) 16 ∧
    AlloyChainProvider.CachesBounded (AlloyChainProvider.run rpc dec ops) 16 ∧
    AlloyL2ChainProvider.CapsAre (AlloyL2ChainProvider.run rpc2 dec2 cfg ops2) 16 ∧
    AlloyL2ChainProvider.CachesBounded
      (AlloyL2ChainProvider.run rpc2 dec2 cfg ops2) 16 := by
  have h1 : AlloyChainProvider.CapsAre AlloyChainProvider.new CACHE_SIZE :=
    ⟨rfl, rfl, rfl, rfl⟩
  have h1b : AlloyChainProvider.CachesBounded AlloyChainProvider.new CACHE_SIZE := by
    refine ⟨?_, ?_, ?_, ?_⟩ <;> simp [AlloyChainProvider.new, LruCache.new]
  have h2 : AlloyL2ChainProvider.CapsAre (AlloyL2ChainProvider.new cfg) CACHE_SIZE :=
    ⟨rfl, rfl, rfl⟩
  have h2b : AlloyL2ChainProvider.CachesBounded (AlloyL2ChainProvider.new cfg)
      CACHE_SIZE := by
    refine ⟨?_, ?_, ?_⟩ <;> simp [AlloyL2ChainProvider.new, LruCache.new]
  obtain ⟨hr1, hr1b⟩ := foldl_preserves_bounded rpc dec ops AlloyChainProvider.new h1 h1b
  obtain ⟨hr2, hr2b⟩ := l2_foldl_preserves_bounded rpc2 dec2 ops2
    (AlloyL2ChainProvider.new cfg) h2 h2b
  exact ⟨rfl, h1, h2, hr1, hr1b, hr2, hr2b⟩

/-! Cache-transparency results for every provider operation. Each operation
is compared against its pure cache-miss computation; the consistency
invariants say every cache entry agrees with that computation. -/

/-- Counterexample to C8: in inherited-fd mode, a panic inside the preimage
server is NOT converted into an error result — `start_server` merely applies
`?` to `server.start().await`, so the panic unwinds past it, while the native
path does return the fatal "server panicked" error. The claim that BOTH modes
catch the panic at the top level is therefore false at the panicking server
outcome. -/
theorem start_server_panic_uncaught :
    startServerRun ServerOutcome.panics = PResult.panicked ∧
    startServerRun ServerOutcome.panics ≠
      PResult.error HostError.serverPanicked ∧
    startNativePreimageServerRun ServerOutcome.panics =
      PResult.error HostError.serverPanicked := by
  decide

/-- C8 (amended): only in native mode (`start_native_preimage_server`) is a
panic in the preimage server caught by `catch_unwind` at the top level and
converted into the fatal error result; in inherited-fd mode (`start_server`)
the panic propagates uncaught out of the function. In both modes a server
`Err` is surfaced as a fatal error result. -/
theorem server_panic_handling (e : Nat) :
    startNativePreimageServerRun ServerOutcome.panics =
      PResult.error HostError.serverPanicked ∧
    startNativePreimageServerRun (ServerOutcome.err e) =
      PResult.error (HostError.serverExitErr e) ∧
    startNativePreimageServerRun ServerOutcome.ok = PResult.ok () ∧
    startServerRun ServerOutcome.panics = PResult.panicked ∧
    startServerRun (ServerOutcome.err e) =
      PResult.error (HostError.serverExitErr e) ∧
    startServerRun ServerOutcome.ok = PResult.ok () := by
  exact ⟨rfl, rfl, rfl, rfl, rfl, rfl⟩

/-- C9: in both `start_server` and `start_server_and_native_client`, the
preimage server receives `Some` fetcher exactly when the host configuration
is online: an offline config yields `None` unconditionally, a fetcher is
only ever produced from an online config, and an online config whose beacon
endpoint loads and whose node addresses are set yields `Some` fetcher in
both entry points. -/
theorem fetcher_iff_online (env : HostEnv) (cfg : HostCli) :
    (cfg.is_offline = true →
      startServerFetcher env cfg = .ok none ∧
      startServerAndNativeClientFetcher env cfg = .ok none) ∧
    (∀ f, startServerFetcher env cfg = .ok (some f) ∨
        startServerAndNativeClientFetcher env cfg = .ok (some f) →
      cfg.is_offline = false) ∧
    (cfg.is_offline = false →
      ∀ beacon, cfg.l1_beacon_address = some beacon →
        env.load_configs_result beacon = .ok () →
        ∀ l1_addr, cfg.l1_node_address = some l1_addr →
        ∀ l2_addr, cfg.l2_node_address = some l2_addr →
        ∃ f, startServerFetcher env cfg = .ok (some f) ∧
          startServerAndNativeClientFetcher env cfg = .ok (some f)) := by
  refine ⟨?_, ?_, ?_⟩
  · intro hoff
    constructor <;>
      simp [startServerFetcher, startServerAndNativeClientFetcher, buildFetcher,
        hoff]
  · intro f hf
    by_contra hon
    have hoff : cfg.is_offline = true := by
      cases h : cfg.is_offline
      · exact absurd h hon
      · rfl
    rcases hf with hf | hf <;>
      simp [startServerFetcher, startServerAndNativeClientFetcher, buildFetcher,
        hoff] at hf
  · intro hon beacon hbeacon hload l1_addr hl1 l2_addr hl2
    have hb : ∃ f, buildFetcher env cfg = .ok (some f) := by
      refine ⟨?_, ?_⟩
      · exact
          { kv_store := cfg.kv_store, l1_provider := env.http_provider l1_addr,
            blob_provider := beacon, l2_provider := env.http_provider l2_addr,
            l2_head := cfg.l2_head }
      · simp [buildFetcher, hon, hbeacon, hload, hl1, hl2]
    obtain ⟨f, hf⟩ := hb
    exact ⟨f, hf, hf⟩

/-- Witness for C9: the offline demo config yields no fetcher, and the
online demo config (beacon `1`, nodes `2` and `3`) yields the same concrete
fetcher through both entry points. -/
theorem fetcher_iff_online_witness :
    startServerFetcher demoEnv demoOfflineCfg = .ok none ∧
    ∃ f, startServerFetcher demoEnv demoOnlineCfg = .ok (some f) ∧
      startServerAndNativeClientFetcher demoEnv demoOnlineCfg = .ok (some f) := by
  constructor
  · exact ((fetcher_iff_online demoEnv demoOfflineCfg).1 rfl).1
  · exact (fetcher_iff_online demoEnv demoOnlineCfg).2.2 rfl 1 rfl rfl 2 rfl 3 rfl

end Kona
